/-
  Verification of the AI Ski Jump Championship round/flight simulation core.

  Shallow embedding of the game's physics, timing-grading and scoring logic
  (src/src/physics.js, the LaunchTimer / LandingTimer components, the game's
  finishGame aggregation, and the scene geometry) into Lean 4.

  Numbers are embedded as exact rationals (ℚ); where a claim needs the
  transcendental launch constants (sqrt, cos, sin) the embedding is over ℝ.
  The physics step's two drag factors are Math.pow(1 - AIR_RESISTANCE, dt*60)
  and Math.pow(1 - AIR_RESISTANCE * 0.3, dt*60) in the source; the step is
  embedded with the two factors as explicit parameters (they are the only
  non-rational functions of dt), and at the fixed dt = 1/60 used by
  calculateFlightPath the exponent is exactly 1, so the factors are the exact
  rationals 0.985 and 0.9955.
-/
import Mathlib

namespace SkiJump

/-! ## Constants (src constants.js, latest revision, and physics.js tuning) -/

/-- GRAVITY = 9.81 (constants.js). -/
def GRAVITY : ℚ := 9.81

/-- AIR_RESISTANCE = 0.015 (constants.js). -/
def AIR_RESISTANCE : ℚ := 0.015

/-- RAMP_HEIGHT = 260 (constants.js). -/
def RAMP_HEIGHT : ℚ := 260

/-- MAX_DISTANCE = 200 (constants.js, latest revision). -/
def MAX_DISTANCE : ℚ := 200

/-- GAME_W = 400 (constants.js). -/
def GAME_W : ℚ := 400

/-- GAME_H = 700 (constants.js). -/
def GAME_H : ℚ := 700

/-- RAMP_LIP = { x: 175, y: 380 } (constants.js). -/
def RAMP_LIP_X : ℚ := 175

/-- RAMP_LIP = { x: 175, y: 380 } (constants.js). -/
def RAMP_LIP_Y : ℚ := 380

/-- LANDING_HILL_SLOPE = 0.38 (constants.js). -/
def LANDING_HILL_SLOPE : ℚ := 0.38

/-- PIXELS_PER_METRE = 1.265 (physics.js tuning constant). -/
def PIXELS_PER_METRE : ℚ := 1.265

/-- PIXEL_SCALE = 3.2 (physics.js tuning constant). -/
def PIXEL_SCALE : ℚ := 3.2

/-- GRAVITY_SCALE = 10 (physics.js tuning constant). -/
def GRAVITY_SCALE : ℚ := 10

/-- G_PX = GRAVITY * GRAVITY_SCALE (physics.js). -/
def G_PX : ℚ := GRAVITY * GRAVITY_SCALE

/-! ## Timing grader (LaunchTimer, with TIMING from constants.js latest revision) -/

/-- Launch timing grades: 'perfect' | 'good' | 'ok' | 'miss'. -/
inductive TGrade
  | perfect
  | good
  | ok
  | miss
  deriving DecidableEq, Repr

/-- TIMING thresholds record shape { perfect, good, ok }. -/
structure Timing where
  perfect : ℚ
  good : ℚ
  ok : ℚ

/-- TIMING = { perfect: 100, good: 220, ok: 400 } (constants.js latest revision,
milliseconds from the optimal moment). -/
def TIMING : Timing := { perfect := 100, good := 220, ok := 400 }

/-- gradeFromError (LaunchTimer): first threshold satisfied wins, else miss. -/
def gradeFromError (error : ℚ) : TGrade :=
  if error ≤ TIMING.perfect then .perfect
  else if error ≤ TIMING.good then .good
  else if error ≤ TIMING.ok then .ok
  else .miss

/-- Numeric quality of a timing grade (higher is better); used only to state
monotonicity, not part of the source. -/
def gradeValue : TGrade → ℕ
  | .perfect => 3
  | .good => 2
  | .ok => 1
  | .miss => 0

/-! ## Flight simulator (physics.js), generic over a linear ordered field -/

/-- A 2D point { x, y }. -/
structure Pt (α : Type) where
  x : α
  y : α

/-- Mutable flight record { x, y, vx, vy, landed, distance, flightTime }. -/
structure FlightState (α : Type) where
  x : α
  y : α
  vx : α
  vy : α
  landed : Bool
  distance : α
  flightTime : α
  deriving DecidableEq, Repr

variable {α : Type} [LinearOrderedField α]

/-- clamp(val, min, max) = Math.max(min, Math.min(max, val)) (physics.js). -/
def clamp (val lo hi : α) : α := max lo (min hi val)

/-- getHillY(x) (physics.js): the landing hill surface height, clamped to the
game bounds; flat at the lip height left of the lip. -/
def getHillY (x : α) : α :=
  if x < (RAMP_LIP_X : α) then (RAMP_LIP_Y : α)
  else clamp ((RAMP_LIP_Y : α) + (x - (RAMP_LIP_X : α)) * (LANDING_HILL_SLOPE : α))
    0 (GAME_H : α)

/-- simulateFlight(state, startPos, dt) (physics.js), one integration step.
`hDrag` and `vDrag` stand for the source's Math.pow(1 - AIR_RESISTANCE, dt*60)
and Math.pow(1 - AIR_RESISTANCE * 0.3, dt*60); they are passed explicitly since
a real-exponent power is the only non-field operation in the step. The landed
guard, gravity, drag, integration, hill landing test (snap + clamped distance)
and the out-of-bounds safety fallback follow the source line by line. -/
def simulateFlightP (hDrag vDrag : α) (startPos : Pt α) (dt : α)
    (s : FlightState α) : FlightState α :=
  if s.landed then s
  else
    let vy1 := s.vy + (G_PX : α) * dt
    let vx2 := s.vx * hDrag
    let vy2 := vy1 * vDrag
    let x2 := s.x + vx2 * dt
    let y2 := s.y + vy2 * dt
    let ft2 := s.flightTime + dt
    let hillY := getHillY x2
    let s1 : FlightState α :=
      if y2 ≥ hillY ∧ x2 > startPos.x then
        { x := x2, y := hillY, vx := vx2, vy := vy2, landed := true,
          distance := clamp ((x2 - startPos.x) / (PIXELS_PER_METRE : α))
            0 (MAX_DISTANCE : α),
          flightTime := ft2 }
      else
        { x := x2, y := y2, vx := vx2, vy := vy2, landed := false,
          distance := s.distance, flightTime := ft2 }
    if s1.x > (GAME_W : α) + 20 ∨ s1.y > (GAME_H : α) + 20 then
      { s1 with
        landed := true
        distance := clamp (clamp (s1.x - startPos.x) 0 (GAME_W : α)
          / (PIXELS_PER_METRE : α)) 0 (MAX_DISTANCE : α) }
    else s1

/-- createFlightState(launchVel, startPos) (physics.js). -/
def createFlightState (launchVel : Pt α) (startPos : Pt α) : FlightState α :=
  { x := startPos.x, y := startPos.y, vx := launchVel.x, vy := launchVel.y,
    landed := false, distance := 0, flightTime := 0 }

/-- Exact value of Math.pow(1 - AIR_RESISTANCE, dt*60) at dt = 1/60. -/
def hDrag60 : ℚ := 1 - AIR_RESISTANCE

/-- Exact value of Math.pow(1 - AIR_RESISTANCE * 0.3, dt*60) at dt = 1/60
(0.3 is the source's vertical drag tuning factor). -/
def vDrag60 : ℚ := 1 - AIR_RESISTANCE * 0.3

/-! ## Flight path precomputation (physics.js calculateFlightPath)

The source loop `while (!state.landed && state.flightTime < maxTime)` has no
explicit iteration bound; the embedding carries a fuel argument of 601 which is
proved sufficient (the loop body raises flightTime by exactly 1/60, so the
time bound stops it after at most 600 iterations). -/

/-- A sampled path point { x, y, t }. -/
structure Sample (α : Type) where
  x : α
  y : α
  t : α
  deriving DecidableEq, Repr

/-- The source's while loop: push the current sample, then step, while the
state is airborne and flightTime < 10 (maxTime). Returns the pushed samples
and the state after the loop. -/
def fpLoop (step : FlightState α → FlightState α) :
    ℕ → FlightState α → List (Sample α) × FlightState α
  | 0, s => ([], s)
  | n + 1, s =>
    if s.landed = false ∧ s.flightTime < 10 then
      let rest := fpLoop step n (step s)
      (⟨s.x, s.y, s.flightTime⟩ :: rest.1, rest.2)
    else ([], s)

/-- The simulation step at the fixed dt = 1/60 used by calculateFlightPath. -/
def flightStep60 (startPos : Pt ℚ) : FlightState ℚ → FlightState ℚ :=
  simulateFlightP hDrag60 vDrag60 startPos (1 / 60)

/-- calculateFlightPath(launchVel, startPos) (physics.js): run the loop from
createFlightState, then append the landing point. -/
def calculateFlightPath (launchVel startPos : Pt ℚ) : List (Sample ℚ) :=
  let s0 := createFlightState launchVel startPos
  let res := fpLoop (flightStep60 startPos) 601 s0
  res.1 ++ [⟨res.2.x, res.2.y, res.2.flightTime⟩]

/-- The state in which calculateFlightPath's loop leaves the simulation. -/
def flightFinalState (launchVel startPos : Pt ℚ) : FlightState ℚ :=
  (fpLoop (flightStep60 startPos) 601 (createFlightState launchVel startPos)).2

/-! ## Launch model (physics.js calculateLaunchVelocity, LaunchTimer) -/

/-- LAUNCH_ANGLES (constants.js revision defining the per-grade angle ranges
read by calculateLaunchVelocity and buildLaunchPayload). -/
structure LaunchAngles where
  perfect : ℚ
  good_min : ℚ
  good_max : ℚ
  ok_min : ℚ
  ok_max : ℚ
  miss_min : ℚ
  miss_max : ℚ

/-- LAUNCH_ANGLES = { perfect: 38, good: 30..42, ok: 22..48, miss: 12..55 }. -/
def LAUNCH_ANGLES : LaunchAngles :=
  { perfect := 38, good_min := 30, good_max := 42, ok_min := 22, ok_max := 48,
    miss_min := 12, miss_max := 55 }

/-- SPEED_MULT per grade (constants.js latest revision). -/
def SPEED_MULT : TGrade → ℚ
  | .perfect => 1.30
  | .good => 1.05
  | .ok => 0.80
  | .miss => 0.55

/-- randBetween(min, max) = min + Math.random() * (max - min); the
Math.random() draw is made explicit as the argument `r` (a fresh value in
[0, 1] on every call in the source). -/
def randBetween (r lo hi : ℚ) : ℚ := lo + r * (hi - lo)

/-- The launch angle selection switch shared by calculateLaunchVelocity
(physics.js) and buildLaunchPayload (LaunchTimer): the perfect grade uses the
fixed angle, the others call randBetween on their range. -/
def launchAngleDeg (grade : TGrade) (r : ℚ) : ℚ :=
  match grade with
  | .perfect => LAUNCH_ANGLES.perfect
  | .good => randBetween r LAUNCH_ANGLES.good_min LAUNCH_ANGLES.good_max
  | .ok => randBetween r LAUNCH_ANGLES.ok_min LAUNCH_ANGLES.ok_max
  | .miss => randBetween r LAUNCH_ANGLES.miss_min LAUNCH_ANGLES.miss_max

/-- Result record { vx, vy, speed, angle } of calculateLaunchVelocity. -/
structure LaunchVel where
  vx : ℝ
  vy : ℝ
  speed : ℝ
  angle : ℝ

/-- calculateLaunchVelocity(timingGrade, windSpeed) (physics.js), with the
per-call Math.random() draw explicit as `r`. baseSpeed comes from energy
conservation, the grade's speed factor and pixel scaling; the angle is
decomposed with cos/sin and the wind adds 30 percent of its pixel-scaled
speed to the horizontal component only. -/
noncomputable def calculateLaunchVelocity (timingGrade : TGrade) (windSpeed : ℝ)
    (r : ℚ) : LaunchVel :=
  let angleDeg : ℝ := (launchAngleDeg timingGrade r : ℚ)
  let baseSpeedMs : ℝ := Real.sqrt (2 * (GRAVITY : ℝ) * (RAMP_HEIGHT : ℝ))
  let gradedSpeed : ℝ := baseSpeedMs * (SPEED_MULT timingGrade : ℚ)
  let speed : ℝ := gradedSpeed * (PIXEL_SCALE : ℝ)
  let angleRad : ℝ := angleDeg * (Real.pi / 180)
  let vx : ℝ := speed * Real.cos angleRad + windSpeed * (PIXEL_SCALE : ℝ) * 0.3
  let vy : ℝ := -(speed * Real.sin angleRad)
  { vx := vx, vy := vy, speed := speed, angle := angleDeg }

/-- The result of calculateLaunchVelocity as a velocity point for the
simulator, with the grade's table factor replaced by a free multiplier `m`
(the quantity claim C9 varies) and the angle fixed; matches the source's
vx/vy formulas exactly. -/
noncomputable def launchVelWithMult (angleDeg windSpeed m : ℝ) : Pt ℝ :=
  let baseSpeedMs : ℝ := Real.sqrt (2 * (GRAVITY : ℝ) * (RAMP_HEIGHT : ℝ))
  let speed : ℝ := baseSpeedMs * m * (PIXEL_SCALE : ℝ)
  let angleRad : ℝ := angleDeg * (Real.pi / 180)
  { x := speed * Real.cos angleRad + windSpeed * (PIXEL_SCALE : ℝ) * 0.3,
    y := -(speed * Real.sin angleRad) }

/-- The rational shape of the same launch velocity, with the transcendental
factors abstracted: K stands for baseSpeedMs * PIXEL_SCALE and cosA / sinA
for the cosine and sine of the fixed launch angle, so the components are
vx = K * m * cosA + windSpeed * PIXEL_SCALE * 0.3 and vy = -(K * m * sinA)
exactly as in calculateLaunchVelocity. -/
def launchVelOfMult (K cosA sinA w m : ℚ) : Pt ℚ :=
  { x := K * m * cosA + w * PIXEL_SCALE * 0.3, y := -(K * m * sinA) }

/-- The ℝ-valued simulation step at dt = 1/60 (drag factors 0.985, 0.9955 as
in the source at that dt). -/
noncomputable def flightStepR (startPos : Pt ℝ) : FlightState ℝ → FlightState ℝ :=
  simulateFlightP ((hDrag60 : ℚ) : ℝ) ((vDrag60 : ℚ) : ℝ) startPos (1 / 60)

/-- The raw landing distance the simulation reports for a launch velocity:
the distance field of the state in which calculateFlightPath's loop ends. -/
noncomputable def rawLandingDistance (launchVel startPos : Pt ℝ) : ℝ :=
  (fpLoop (flightStepR startPos) 601 (createFlightState launchVel startPos)).2.distance

/-! ## Launch timer resolution (LaunchTimer doLaunch) -/

/-- APPROACH_DURATION = 1500 ms (constants.js). -/
def APPROACH_DURATION : ℚ := 1500

/-- The payload built by buildLaunchPayload (LaunchTimer):
{ grade, angle, speedMult }. -/
structure LaunchPayload where
  grade : TGrade
  angle : ℚ
  speedMult : ℚ
  deriving DecidableEq, Repr

/-- buildLaunchPayload(grade) (LaunchTimer), with the Math.random() draw
explicit as `r`. -/
def buildLaunchPayload (grade : TGrade) (r : ℚ) : LaunchPayload :=
  { grade := grade, angle := launchAngleDeg grade r, speedMult := SPEED_MULT grade }

/-- The launch-phase resolution flag (launchedRef / launched state). -/
structure LaunchTimerState where
  launched : Bool
  deriving DecidableEq, Repr

/-- doLaunch(forceGrade) (LaunchTimer): guarded by the launched flag; computes
the grade from the elapsed approach time unless forced; fires onLaunch with
the payload. The fired callback value is returned as an Option (none when the
guard absorbs the call). -/
def doLaunch (s : LaunchTimerState) (elapsed : ℚ) (forceGrade : Option TGrade)
    (r : ℚ) : LaunchTimerState × Option LaunchPayload :=
  if s.launched then (s, none)
  else
    let grade :=
      match forceGrade with
      | some g => g
      | none => gradeFromError |elapsed - APPROACH_DURATION|
    ({ launched := true }, some (buildLaunchPayload grade r))

/-! ## Landing model (LandingTimer) -/

/-- Landing style grades: 'telemark' | 'clean' | 'shaky' | 'crash'. -/
inductive LGrade
  | telemark
  | clean
  | shaky
  | crash
  deriving DecidableEq, Repr

/-- LANDING_MULT per style grade (constants.js latest revision). -/
def LANDING_MULT : LGrade → ℚ
  | .telemark => 1.3
  | .clean => 1.1
  | .shaky => 0.95
  | .crash => 0.7

/-- A row of the GRADES threshold table (LandingTimer). -/
structure GradeEntry where
  maxError : ℚ
  grade : LGrade
  multiplier : ℚ
  deriving DecidableEq, Repr

/-- The landing result { grade, multiplier } passed to onLand. -/
structure LandingResult where
  grade : LGrade
  multiplier : ℚ
  deriving DecidableEq, Repr

/-- GRADES (LandingTimer): error thresholds 0.06 / 0.14 / 0.24. -/
def GRADES : List GradeEntry :=
  [ { maxError := 0.06, grade := .telemark, multiplier := LANDING_MULT .telemark },
    { maxError := 0.14, grade := .clean, multiplier := LANDING_MULT .clean },
    { maxError := 0.24, grade := .shaky, multiplier := LANDING_MULT .shaky } ]

/-- CRASH_GRADE (LandingTimer). -/
def CRASH_GRADE : LandingResult := { grade := .crash, multiplier := LANDING_MULT .crash }

/-- gradeFromError (LandingTimer): first GRADES row whose threshold the error
meets, else CRASH_GRADE. -/
def landingGradeFromError (error : ℚ) : LandingResult :=
  match GRADES.find? (fun g => decide (error ≤ g.maxError)) with
  | some g => { grade := g.grade, multiplier := g.multiplier }
  | none => CRASH_GRADE

/-- OPTIMAL_PROGRESS = 0.82 (LandingTimer). -/
def OPTIMAL_PROGRESS : ℚ := 0.82

/-- AUTO_LAND_PROGRESS = 0.98 (LandingTimer). -/
def AUTO_LAND_PROGRESS : ℚ := 0.98

/-- The landing-phase resolution flag (landedRef / landed state). -/
structure LandingTimerState where
  landed : Bool
  deriving DecidableEq, Repr

/-- doLand(forceGrade) (LandingTimer): guarded by the landed flag; a forced
crash takes CRASH_GRADE, any other forced grade falls back to
gradeFromError(0); otherwise the grade comes from the flight-progress error
against the 0.02-shifted optimum. The fired onLand value is returned as an
Option (none when the guard absorbs the call). -/
def doLand (s : LandingTimerState) (fp : ℚ) (forceGrade : Option LGrade) :
    LandingTimerState × Option LandingResult :=
  if s.landed then (s, none)
  else
    let result :=
      match forceGrade with
      | some .crash => CRASH_GRADE
      | some _ => landingGradeFromError 0
      | none => landingGradeFromError |fp - (OPTIMAL_PROGRESS - 0.02)|
    ({ landed := true }, some result)

/-- The auto-land effect (LandingTimer): while the component is active, once
flightProgress reaches AUTO_LAND_PROGRESS with the landing unresolved it
forces doLand('crash'). -/
def autoLandEffect (active : Bool) (fp : ℚ) (s : LandingTimerState) :
    LandingTimerState × Option LandingResult :=
  if active ∧ AUTO_LAND_PROGRESS ≤ fp ∧ s.landed = false then
    doLand s fp (some .crash)
  else (s, none)

/-! ## Round aggregation (finishGame in the game component) -/

/-- ROUNDS_PER_GAME = 5, BEST_N = 3 (constants.js). -/
def ROUNDS_PER_GAME : ℕ := 5

/-- BEST_N = 3 (constants.js). -/
def BEST_N : ℕ := 3

/-- A stored round result entry: the fields of the source's score objects
that finishGame reads ({ round, distance, counted }). -/
structure Score where
  round : ℕ
  distance : ℚ
  counted : Bool
  deriving DecidableEq, Repr

/-- The comparator scores.sort((a, b) => b.distance - a.distance): descending
by distance. JS Array.prototype.sort is a stable sort, as is
List.insertionSort, so the sorted result is identical. -/
def distDesc (a b : Score) : Prop := b.distance ≤ a.distance

instance : DecidableRel distDesc := fun a b =>
  inferInstanceAs (Decidable (b.distance ≤ a.distance))

instance : IsTotal Score distDesc := ⟨fun a b => le_total b.distance a.distance⟩

instance : IsTrans Score distDesc := ⟨fun _ _ _ h1 h2 => le_trans h2 h1⟩

/-- The comparator counted.sort((a, b) => a.round - b.round): ascending by
round index. -/
def roundAsc (a b : Score) : Prop := a.round ≤ b.round

instance : DecidableRel roundAsc := fun a b =>
  inferInstanceAs (Decidable (a.round ≤ b.round))

/-- sorted.map((s, i) => ({ ...s, counted: i < BEST_N })) as a recursion on
the list with the running index `i`. -/
def markFrom : ℕ → List Score → List Score
  | _, [] => []
  | i, s :: t => { s with counted := decide (i < BEST_N) } :: markFrom (i + 1) t

/-- Math.round: round half toward positive infinity. -/
def jsRound (q : ℚ) : ℤ := ⌊q + 1 / 2⌋

/-- Math.round(q * 10) / 10: round to one decimal place. -/
def roundTenth (q : ℚ) : ℚ := (jsRound (q * 10) : ℚ) / 10

/-- finishGame (game component), the pure score aggregation: sort a copy of
the scores by distance descending, mark the first BEST_N as counted, re-sort
by round, and total the counted distances rounded to one decimal. Returns the
stored final score list and totalScore. -/
def finishGame (prevScores : List Score) : List Score × ℚ :=
  let sorted := List.insertionSort distDesc prevScores
  let markedCounted := markFrom 0 sorted
  let ordered := List.insertionSort roundAsc markedCounted
  let total := roundTenth ((ordered.filter (fun s => s.counted)).map Score.distance).sum
  (ordered, total)

/-- Descending order on ℚ, for the specification-side selection of the
largest distances. -/
def qDesc (a b : ℚ) : Prop := b ≤ a

instance : DecidableRel qDesc := fun a b => inferInstanceAs (Decidable (b ≤ a))

instance : IsTotal ℚ qDesc := ⟨fun a b => le_total b a⟩

instance : IsTrans ℚ qDesc := ⟨fun _ _ _ h1 h2 => le_trans h2 h1⟩

instance : IsAntisymm ℚ qDesc := ⟨fun _ _ h1 h2 => le_antisymm h2 h1⟩

/-- Specification-side definition (spec s8, best-3 aggregation): the sum of
the 3 largest values of a list of distances. -/
def sumTop3 (ds : List ℚ) : ℚ := ((List.insertionSort qDesc ds).take BEST_N).sum

/-! ## Scene geometry (SkiJumpScene revisions) -/

/-- The earlier scene revision's hill end, GAME_W - 10. -/
def HILL_END_X_prev : ℚ := GAME_W - 10

/-- The earlier scene revision's hill run in pixels. -/
def HILL_RUN_PX_prev : ℚ := HILL_END_X_prev - RAMP_LIP_X

/-- PX_PER_METRE = HILL_RUN_PX / 170 (earlier SkiJumpScene revision's own
pixel-per-metre constant). -/
def PX_PER_METRE : ℚ := HILL_RUN_PX_prev / 170

/-- hillPosAtDistance(metres) of the earlier SkiJumpScene revision: marker
position along the hill using the scene's own PX_PER_METRE. -/
def hillPosAtDistancePrev (metres : ℚ) : Pt ℚ :=
  let dx := metres * PX_PER_METRE
  { x := RAMP_LIP_X + dx, y := RAMP_LIP_Y + dx * LANDING_HILL_SLOPE }

/-- hillPosAtDistance(metres) of the latest SkiJumpScene revision, which
imports PIXELS_PER_METRE from physics.js. -/
def hillPosAtDistance (metres : ℚ) : Pt ℚ :=
  let dx := metres * PIXELS_PER_METRE
  { x := RAMP_LIP_X + dx, y := RAMP_LIP_Y + dx * LANDING_HILL_SLOPE }

/-- The distance in metres the simulator scores for a landing at pixel x
(the distance formula of simulateFlight's hill-landing branch with the launch
origin at RAMP_LIP). -/
def scoreDistanceAtX (x : ℚ) : ℚ :=
  clamp ((x - RAMP_LIP_X) / PIXELS_PER_METRE) 0 MAX_DISTANCE

/-! ## Basic clamp facts -/

theorem le_clamp (v lo hi : α) : lo ≤ clamp v lo hi := le_max_left lo _

theorem clamp_le_right (v : α) {lo hi : α} (h : lo ≤ hi) : clamp v lo hi ≤ hi :=
  max_le h (min_le_left hi v)

/-! ## Claim C3: timing grader thresholds and monotonicity -/

/-- Claim C3: for every non-negative timing error, the launch grader returns
Perfect iff the error is within TIMING.perfect, else Good within TIMING.good,
else Ok within TIMING.ok, else Miss, with ties going to the tighter grade; and
the grade is monotone: a smaller error never yields a worse grade. -/
theorem timing_grader_thresholds :
    (∀ e : ℚ, 0 ≤ e →
      (e ≤ TIMING.perfect → gradeFromError e = .perfect) ∧
      (TIMING.perfect < e → e ≤ TIMING.good → gradeFromError e = .good) ∧
      (TIMING.good < e → e ≤ TIMING.ok → gradeFromError e = .ok) ∧
      (TIMING.ok < e → gradeFromError e = .miss)) ∧
    (∀ e1 e2 : ℚ, 0 ≤ e1 → e1 ≤ e2 →
      gradeValue (gradeFromError e2) ≤ gradeValue (gradeFromError e1)) := by
  have hp : TIMING.perfect = 100 := rfl
  have hg : TIMING.good = 220 := rfl
  have ho : TIMING.ok = 400 := rfl
  constructor
  · intro e _
    rw [hp, hg, ho]
    refine ⟨fun h1 => ?_, fun h1 h2 => ?_, fun h1 h2 => ?_, fun h1 => ?_⟩ <;>
      · unfold gradeFromError
        rw [hp, hg, ho]
        split_ifs <;> first | rfl | linarith
  · intro e1 e2 _ h12
    unfold gradeFromError
    rw [hp, hg, ho]
    split_ifs <;> simp [gradeValue] <;> linarith

/-- Witness for C3 at concrete errors: the exact threshold 100 grades Perfect,
and a smaller error (150 vs 300) grades at least as well. -/
theorem timing_grader_thresholds_witness :
    gradeFromError 100 = .perfect ∧
      gradeValue (gradeFromError 300) ≤ gradeValue (gradeFromError 150) :=
  ⟨(timing_grader_thresholds.1 100 (by norm_num)).1 (by norm_num [TIMING]),
    timing_grader_thresholds.2 150 300 (by norm_num) (by norm_num)⟩

/-! ## Claim C4: landing distance is always within bounds -/

/-- Claim C4: whenever one simulation step resolves a landing (by hill contact
or the out-of-bounds safety fallback), the computed distance lies within
[0, MAX_DISTANCE], for every drag factor, time step, start position and
airborne state. -/
theorem landing_distance_in_bounds (hD vD dt : ℚ) (startPos : Pt ℚ)
    (s : FlightState ℚ) (h0 : s.landed = false)
    (h1 : (simulateFlightP hD vD startPos dt s).landed = true) :
    0 ≤ (simulateFlightP hD vD startPos dt s).distance ∧
      (simulateFlightP hD vD startPos dt s).distance ≤ MAX_DISTANCE := by
  have hM : (0 : ℚ) ≤ MAX_DISTANCE := by norm_num [MAX_DISTANCE]
  unfold simulateFlightP at h1 ⊢
  simp only [h0] at h1 ⊢
  split_ifs at h1 ⊢ <;>
    first
      | exact ⟨le_clamp _ _ _, clamp_le_right _ hM⟩
      | simp_all

/-- Witness for C4: a state falling from high above the bounds lands on the
next step with a distance inside [0, MAX_DISTANCE]. -/
theorem landing_distance_in_bounds_witness :
    ((⟨500, 1000, 0, 0, false, 0, 0⟩ : FlightState ℚ).landed = false) ∧
    ((simulateFlightP (1 : ℚ) 1 ⟨175, 380⟩ (1 / 60)
        ⟨500, 1000, 0, 0, false, 0, 0⟩).landed = true) ∧
    (0 ≤ (simulateFlightP (1 : ℚ) 1 ⟨175, 380⟩ (1 / 60)
        ⟨500, 1000, 0, 0, false, 0, 0⟩).distance ∧
      (simulateFlightP (1 : ℚ) 1 ⟨175, 380⟩ (1 / 60)
        ⟨500, 1000, 0, 0, false, 0, 0⟩).distance ≤ MAX_DISTANCE) :=
  ⟨rfl, by norm_num [simulateFlightP, getHillY, clamp, G_PX, GRAVITY, GRAVITY_SCALE,
      RAMP_LIP_X, RAMP_LIP_Y, LANDING_HILL_SLOPE, GAME_W, GAME_H],
    landing_distance_in_bounds 1 1 (1 / 60) _ _ rfl
      (by norm_num [simulateFlightP, getHillY, clamp, G_PX, GRAVITY, GRAVITY_SCALE,
        RAMP_LIP_X, RAMP_LIP_Y, LANDING_HILL_SLOPE, GAME_W, GAME_H])⟩

/-! ## Claim C5: a landed state is never mutated -/

/-- Claim C5: once the landed flag is set, a further simulation step returns
the state completely unchanged: position, velocity, flight time and distance
are untouched. -/
theorem no_mutation_after_landing (hD vD dt : ℚ) (startPos : Pt ℚ)
    (s : FlightState ℚ) (h : s.landed = true) :
    simulateFlightP hD vD startPos dt s = s := by
  unfold simulateFlightP
  simp [h]

/-- Witness for C5 at a concrete landed state. -/
theorem no_mutation_after_landing_witness :
    ((⟨300, 400, 5, 5, true, 50, 2⟩ : FlightState ℚ).landed = true) ∧
    simulateFlightP hDrag60 vDrag60 ⟨175, 380⟩ (1 / 60) ⟨300, 400, 5, 5, true, 50, 2⟩ =
      ⟨300, 400, 5, 5, true, 50, 2⟩ :=
  ⟨rfl, no_mutation_after_landing _ _ _ _ _ rfl⟩

/-! ## Claim C6: resolution is exactly-once within a phase -/

/-- Claim C6: after the launch (or landing) resolution has run once, every
further call in the same phase is a no-op: it leaves the timer state
unchanged and fires no second callback. -/
theorem resolution_exactly_once :
    (∀ (s : LaunchTimerState) (e1 e2 : ℚ) (f1 f2 : Option TGrade) (r1 r2 : ℚ),
      doLaunch (doLaunch s e1 f1 r1).1 e2 f2 r2 = ((doLaunch s e1 f1 r1).1, none)) ∧
    (∀ (s : LandingTimerState) (fp1 fp2 : ℚ) (f1 f2 : Option LGrade),
      doLand (doLand s fp1 f1).1 fp2 f2 = ((doLand s fp1 f1).1, none)) := by
  constructor
  · intro s e1 e2 f1 f2 r1 r2
    have h : (doLaunch s e1 f1 r1).1.launched = true := by
      unfold doLaunch
      split_ifs with hs
      · exact hs
      · rfl
    generalize (doLaunch s e1 f1 r1).1 = t at h ⊢
    unfold doLaunch
    simp [h]
  · intro s fp1 fp2 f1 f2
    have h : (doLand s fp1 f1).1.landed = true := by
      unfold doLand
      split_ifs with hs
      · exact hs
      · rfl
    generalize (doLand s fp1 f1).1 = t at h ⊢
    unfold doLand
    simp [h]

/-! ## Claim C7: flight auto-resolves as Crash at progress 0.98 -/

/-- Claim C7: with the landing still unresolved, as soon as flightProgress
reaches AUTO_LAND_PROGRESS (0.98) the active landing timer force-resolves
with grade crash and multiplier 0.7. -/
theorem auto_land_forces_crash (fp : ℚ) (s : LandingTimerState)
    (h0 : s.landed = false) (h1 : AUTO_LAND_PROGRESS ≤ fp) :
    autoLandEffect true fp s =
      ({ landed := true }, some { grade := .crash, multiplier := 0.7 }) := by
  unfold autoLandEffect doLand
  simp [h0, h1, CRASH_GRADE, LANDING_MULT]

/-- Witness for C7 at flightProgress exactly 0.98. -/
theorem auto_land_forces_crash_witness :
    ((⟨false⟩ : LandingTimerState).landed = false) ∧ AUTO_LAND_PROGRESS ≤ (0.98 : ℚ) ∧
    autoLandEffect true 0.98 ⟨false⟩ =
      (⟨true⟩, some { grade := .crash, multiplier := 0.7 }) :=
  ⟨rfl, by norm_num [AUTO_LAND_PROGRESS],
    auto_land_forces_crash 0.98 ⟨false⟩ rfl (by norm_num [AUTO_LAND_PROGRESS])⟩

/-! ## Claim C8: one pixel-per-metre constant for scene and scoring -/

/-- Counterexample for C8 as stated against the earlier scene revision: the
scene's own PX_PER_METRE (215/170) is a different constant from the
simulator's PIXELS_PER_METRE (1.265), and the 170 m marker it places is
scored by the simulator as 43000/253 m (about 169.96), not 170. -/
theorem scene_scale_mismatch :
    PX_PER_METRE ≠ PIXELS_PER_METRE ∧
      scoreDistanceAtX (hillPosAtDistancePrev 170).x ≠ 170 := by
  constructor
  · norm_num [PX_PER_METRE, HILL_RUN_PX_prev, HILL_END_X_prev, GAME_W, RAMP_LIP_X,
      PIXELS_PER_METRE]
  · have hx : (hillPosAtDistancePrev 170).x = 390 := by
      norm_num [hillPosAtDistancePrev, PX_PER_METRE, HILL_RUN_PX_prev, HILL_END_X_prev,
        GAME_W, RAMP_LIP_X]
    rw [hx]
    unfold scoreDistanceAtX clamp
    rw [show ((390 : ℚ) - RAMP_LIP_X) / PIXELS_PER_METRE = 43000 / 253 by
      norm_num [RAMP_LIP_X, PIXELS_PER_METRE]]
    rw [min_eq_right (by norm_num [MAX_DISTANCE]), max_eq_right (by norm_num)]
    norm_num

/-- Claim C8 (amended): in the latest scene revision, which imports
PIXELS_PER_METRE from the physics module, a marker labelled d metres sits
exactly at the hill position the simulator scores as d metres, for every
d in [0, MAX_DISTANCE]. -/
theorem marker_scores_exactly (d : ℚ) (h0 : 0 ≤ d) (h1 : d ≤ MAX_DISTANCE) :
    scoreDistanceAtX (hillPosAtDistance d).x = d := by
  have hp : PIXELS_PER_METRE ≠ 0 := by norm_num [PIXELS_PER_METRE]
  simp only [scoreDistanceAtX, hillPosAtDistance, clamp]
  rw [add_sub_cancel_left, mul_div_cancel_right₀ d hp, min_eq_right h1,
    max_eq_right h0]

/-- Witness for the amended C8 at the 170 m marker. -/
theorem marker_scores_exactly_witness :
    (0 : ℚ) ≤ 170 ∧ (170 : ℚ) ≤ MAX_DISTANCE ∧
      scoreDistanceAtX (hillPosAtDistance 170).x = 170 :=
  ⟨by norm_num, by norm_num [MAX_DISTANCE],
    marker_scores_exactly 170 (by norm_num) (by norm_num [MAX_DISTANCE])⟩

/-! ## Claim C1: launch determinism -/

/-- Claim C1 evaluation: the launch computation is not deterministic in
(grade, windSpeed). For grade good and wind 0, two Math.random() draws (0 and
1) give different launch angles (30 vs 42 degrees) from both
calculateLaunchVelocity (physics.js) and buildLaunchPayload (LaunchTimer),
contradicting the constants file's own comment that the angle per grade is
deterministic. -/
theorem launch_angle_randomized :
    (calculateLaunchVelocity .good 0 0).angle ≠ (calculateLaunchVelocity .good 0 1).angle ∧
      buildLaunchPayload .good 0 ≠ buildLaunchPayload .good 1 := by
  constructor
  · simp only [calculateLaunchVelocity, launchAngleDeg, randBetween, LAUNCH_ANGLES]
    norm_num
  · simp only [buildLaunchPayload, launchAngleDeg, randBetween, LAUNCH_ANGLES,
      LaunchPayload.mk.injEq, ne_eq]
    norm_num

/-! ## Claim C10: calculateFlightPath terminates with a bounded, non-empty path -/

/-- One-layer unfolding of the flight path loop at positive fuel. -/
theorem fpLoop_succ (step : FlightState α → FlightState α) (n : ℕ) (s : FlightState α) :
    fpLoop step (n + 1) s =
      if s.landed = false ∧ s.flightTime < 10 then
        ((⟨s.x, s.y, s.flightTime⟩ : Sample α) :: (fpLoop step n (step s)).1,
          (fpLoop step n (step s)).2)
      else ([], s) :=
  rfl

/-- The loop pushes at most one sample per unit of fuel. -/
theorem fpLoop_length_le (step : FlightState α → FlightState α) :
    ∀ (n : ℕ) (s : FlightState α), (fpLoop step n s).1.length ≤ n := by
  intro n
  induction n with
  | zero => intro s; simp [fpLoop]
  | succ n ih =>
    intro s
    rw [fpLoop_succ]
    split_ifs
    · simpa using Nat.succ_le_succ (ih (step s))
    · simp

/-- An airborne step at dt = 1/60 advances flightTime by exactly 1/60. -/
theorem step60_flightTime (startPos : Pt ℚ) (s : FlightState ℚ)
    (h : s.landed = false) :
    (flightStep60 startPos s).flightTime = s.flightTime + 1 / 60 := by
  unfold flightStep60 simulateFlightP
  simp only [h]
  split_ifs <;> simp_all

/-- With enough fuel relative to the remaining simulated time, the loop always
exits through its own condition: the final state is landed or has flown the
full 10 seconds. -/
theorem fpLoop_exits_by_condition (startPos : Pt ℚ) :
    ∀ (n : ℕ) (s : FlightState ℚ),
      10 - (n : ℚ) * (1 / 60) ≤ s.flightTime →
      ((fpLoop (flightStep60 startPos) n s).2.landed = true ∨
        10 ≤ (fpLoop (flightStep60 startPos) n s).2.flightTime) := by
  intro n
  induction n with
  | zero =>
    intro s h
    right
    simp only [fpLoop]
    push_cast at h
    linarith
  | succ n ih =>
    intro s h
    by_cases hc : s.landed = false ∧ s.flightTime < 10
    · have h2 : 10 - (n : ℚ) * (1 / 60) ≤ (flightStep60 startPos s).flightTime := by
        rw [step60_flightTime startPos s hc.1]
        push_cast at h ⊢
        linarith
      rw [fpLoop_succ, if_pos hc]
      exact ih (flightStep60 startPos s) h2
    · rw [fpLoop_succ, if_neg hc]
      rcases not_and_or.mp hc with h1 | h2
      · left
        simpa using h1
      · right
        exact not_lt.mp h2

/-- Claim C10: for every launch velocity and start position,
calculateFlightPath returns a finite non-empty list of at most 602 samples,
and its loop ends only because the flight landed or the 10-second time cap
was reached (never by running out of the embedded fuel). -/
theorem flight_path_terminates (launchVel startPos : Pt ℚ) :
    calculateFlightPath launchVel startPos ≠ [] ∧
    (calculateFlightPath launchVel startPos).length ≤ 602 ∧
    ((flightFinalState launchVel startPos).landed = true ∨
      10 ≤ (flightFinalState launchVel startPos).flightTime) := by
  refine ⟨?_, ?_, ?_⟩
  · unfold calculateFlightPath
    simp
  · unfold calculateFlightPath
    have hl := fpLoop_length_le (flightStep60 startPos) 601
      (createFlightState launchVel startPos)
    simp only [List.length_append, List.length_cons, List.length_nil]
    omega
  · unfold flightFinalState
    apply fpLoop_exits_by_condition
    show (10 : ℚ) - (601 : ℚ) * (1 / 60) ≤ 0
    norm_num

/-! ## Claim C2: best-3-of-5 aggregation -/

/-- The counted entries of the index-marked list are exactly the first
BEST_N - i entries, marked. -/
theorem markFrom_filter (i : ℕ) (l : List Score) :
    (markFrom i l).filter (fun s => s.counted) =
      (l.take (BEST_N - i)).map (fun s => { s with counted := true }) := by
  induction l generalizing i with
  | nil => simp [markFrom]
  | cons a t ih =>
    unfold markFrom
    by_cases h : i < BEST_N
    · have h3 : BEST_N - i = (BEST_N - (i + 1)) + 1 := by omega
      rw [h3]
      simp [List.filter_cons, h, ih (i + 1)]
    · have h3 : BEST_N - i = 0 := by omega
      have h4 : BEST_N - (i + 1) = 0 := by omega
      rw [h3]
      simp [List.filter_cons, h, ih (i + 1), h4]

/-- Marking from index 0 sets counted on exactly min BEST_N (length) entries. -/
theorem markFrom_countP (l : List Score) :
    (markFrom 0 l).countP (fun s => s.counted) = min BEST_N l.length := by
  rw [List.countP_eq_length_filter, markFrom_filter]
  simp [List.length_take]

/-- Mapping distances commutes with the distance-descending sort: sorting the
scores then reading distances equals sorting the distances. -/
theorem sorted_map_distance (l : List Score) :
    (List.insertionSort distDesc l).map Score.distance =
      List.insertionSort qDesc (l.map Score.distance) := by
  have hperm : ((List.insertionSort distDesc l).map Score.distance).Perm
      (List.insertionSort qDesc (l.map Score.distance)) :=
    ((List.perm_insertionSort distDesc l).map _).trans
      (List.perm_insertionSort qDesc _).symm
  have hs1 : List.Sorted qDesc ((List.insertionSort distDesc l).map Score.distance) := by
    rw [List.Sorted, List.pairwise_map]
    exact List.sorted_insertionSort distDesc l
  exact List.eq_of_perm_of_sorted hperm hs1 (List.sorted_insertionSort qDesc _)

/-- Rounding to a tenth is the identity on integer multiples of a tenth. -/
theorem roundTenth_tenth (k : ℤ) : roundTenth ((k : ℚ) / 10) = (k : ℚ) / 10 := by
  unfold roundTenth jsRound
  rw [div_mul_cancel₀ _ (by norm_num : (10 : ℚ) ≠ 0)]
  have hf : ⌊(k : ℚ) + 1 / 2⌋ = k := by
    rw [Int.floor_eq_iff]
    constructor <;> [linarith; linarith]
  rw [hf]

/-- A sum of integer multiples of a tenth is an integer multiple of a tenth. -/
theorem sum_tenths (L : List ℚ) (h : ∀ x ∈ L, ∃ k : ℤ, x = (k : ℚ) / 10) :
    ∃ K : ℤ, L.sum = (K : ℚ) / 10 := by
  induction L with
  | nil => exact ⟨0, by simp⟩
  | cons a t ih =>
    obtain ⟨k, hk⟩ := h a (by simp)
    obtain ⟨K, hK⟩ := ih (fun x hx => h x (by simp [hx]))
    refine ⟨k + K, ?_⟩
    rw [List.sum_cons, hk, hK]
    push_cast
    ring

/-- Claim C2: for a completed game of 5 stored round results whose distances
are (as calculateScore guarantees) multiples of 0.1, finishGame marks exactly
3 entries counted and totals exactly the sum of the 3 largest final
distances. -/
theorem finishGame_best3 (scores : List Score) (h5 : scores.length = 5)
    (hd : ∀ s ∈ scores, ∃ k : ℤ, s.distance = (k : ℚ) / 10) :
    ((finishGame scores).1.countP (fun s => s.counted) = 3) ∧
      (finishGame scores).2 = sumTop3 (scores.map Score.distance) := by
  unfold finishGame
  set sorted := List.insertionSort distDesc scores with hsorted
  set marked := markFrom 0 sorted with hmarked
  set ordered := List.insertionSort roundAsc marked with hordered
  have hperm : ordered.Perm marked := List.perm_insertionSort _ _
  have hlen : sorted.length = 5 := by
    rw [hsorted, List.length_insertionSort, h5]
  constructor
  · rw [hperm.countP_eq]
    rw [hmarked, markFrom_countP, hlen]
    rfl
  · have hfilter :
        ((ordered.filter (fun s => s.counted)).map Score.distance).sum =
          ((marked.filter (fun s => s.counted)).map Score.distance).sum :=
      ((hperm.filter _).map _).sum_eq
    simp only [hfilter]
    rw [hmarked, markFrom_filter, Nat.sub_zero, List.map_map]
    have hcomp : (Score.distance ∘ fun s => { s with counted := true }) =
        Score.distance := rfl
    rw [hcomp, List.map_take, sorted_map_distance]
    unfold sumTop3
    obtain ⟨K, hK⟩ := sum_tenths ((List.insertionSort qDesc
        (scores.map Score.distance)).take BEST_N) (by
      intro x hx
      have hx2 : x ∈ scores.map Score.distance :=
        (List.mem_insertionSort qDesc).mp (List.mem_of_mem_take hx)
      obtain ⟨s, hs, rfl⟩ := List.mem_map.mp hx2
      exact hd s hs)
    rw [hK, roundTenth_tenth]

/-- Witness for C2: the spec's scenario C, distances [50, 120, 80, 150, 30]. -/
theorem finishGame_best3_witness :
    (([⟨0, 50, false⟩, ⟨1, 120, false⟩, ⟨2, 80, false⟩, ⟨3, 150, false⟩,
        ⟨4, 30, false⟩] : List Score).length = 5) ∧
    ((finishGame [⟨0, 50, false⟩, ⟨1, 120, false⟩, ⟨2, 80, false⟩, ⟨3, 150, false⟩,
        ⟨4, 30, false⟩]).1.countP (fun s => s.counted) = 3 ∧
      (finishGame [⟨0, 50, false⟩, ⟨1, 120, false⟩, ⟨2, 80, false⟩, ⟨3, 150, false⟩,
        ⟨4, 30, false⟩]).2 =
        sumTop3 (([⟨0, 50, false⟩, ⟨1, 120, false⟩, ⟨2, 80, false⟩, ⟨3, 150, false⟩,
          ⟨4, 30, false⟩] : List Score).map Score.distance)) :=
  ⟨rfl, finishGame_best3 _ rfl (by
    intro s hs
    fin_cases hs
    exacts [⟨500, by norm_num⟩, ⟨1200, by norm_num⟩, ⟨800, by norm_num⟩,
      ⟨1500, by norm_num⟩, ⟨300, by norm_num⟩])⟩

/-! ## Claim C9: monotonicity of distance in the speed multiplier -/

/-- An airborne step scales the horizontal velocity by hDrag and advances x
by the new horizontal velocity times dt, in every branch. -/
theorem step_x_vx (hD vD dt : ℚ) (sp : Pt ℚ) (s : FlightState ℚ)
    (h : s.landed = false) :
    (simulateFlightP hD vD sp dt s).vx = s.vx * hD ∧
      (simulateFlightP hD vD sp dt s).x = s.x + s.vx * hD * dt := by
  unfold simulateFlightP
  simp only [h]
  split_ifs <;> first | exact ⟨rfl, rfl⟩ | simp_all

/-- One airborne step preserves a strict horizontal ordering of two states. -/
theorem step_mono (hD vD dt : ℚ) (sp : Pt ℚ) (s1 s2 : FlightState ℚ)
    (hdt : 0 < dt) (hh : 0 < hD)
    (hl1 : s1.landed = false) (hl2 : s2.landed = false)
    (hvx : s1.vx < s2.vx) (hx : s1.x ≤ s2.x) :
    (simulateFlightP hD vD sp dt s1).vx < (simulateFlightP hD vD sp dt s2).vx ∧
      (simulateFlightP hD vD sp dt s1).x < (simulateFlightP hD vD sp dt s2).x := by
  obtain ⟨ha1, hb1⟩ := step_x_vx hD vD dt sp s1 hl1
  obtain ⟨ha2, hb2⟩ := step_x_vx hD vD dt sp s2 hl2
  rw [ha1, ha2, hb1, hb2]
  constructor
  · exact mul_lt_mul_of_pos_right hvx hh
  · nlinarith [mul_pos (mul_pos (sub_pos.mpr hvx) hh) hdt]

/-- Claim C9 (amended): holding the launch angle and the wind fixed, a
strictly higher speed multiplier keeps the jumper strictly ahead
horizontally at every simulation step while both flights are airborne (for
any positive drag factor and time step). The raw landing distances
themselves can tie: both saturate at the clamps (see the counterexample). -/
theorem speed_multiplier_monotone_airborne (hD vD dt K cosA sinA w m1 m2 : ℚ)
    (sp : Pt ℚ) (n : ℕ)
    (hdt : 0 < dt) (hh : 0 < hD) (hK : 0 < K * cosA) (hm : m1 < m2) (hn : 1 ≤ n)
    (hair : ∀ k < n,
      ((simulateFlightP hD vD sp dt)^[k]
          (createFlightState (launchVelOfMult K cosA sinA w m1) sp)).landed = false ∧
        ((simulateFlightP hD vD sp dt)^[k]
          (createFlightState (launchVelOfMult K cosA sinA w m2) sp)).landed = false) :
    ((simulateFlightP hD vD sp dt)^[n]
        (createFlightState (launchVelOfMult K cosA sinA w m1) sp)).x <
      ((simulateFlightP hD vD sp dt)^[n]
        (createFlightState (launchVelOfMult K cosA sinA w m2) sp)).x := by
  set step := simulateFlightP hD vD sp dt with hstepdef
  set s1 : FlightState ℚ := createFlightState (launchVelOfMult K cosA sinA w m1) sp
    with hs1def
  set s2 : FlightState ℚ := createFlightState (launchVelOfMult K cosA sinA w m2) sp
    with hs2def
  have hvx0 : s1.vx < s2.vx := by
    rw [hs1def, hs2def]
    show K * m1 * cosA + w * PIXEL_SCALE * 0.3 < K * m2 * cosA + w * PIXEL_SCALE * 0.3
    nlinarith
  have hx0 : s1.x = s2.x := rfl
  have main : ∀ j : ℕ, (∀ k < j + 1,
      (step^[k] s1).landed = false ∧ (step^[k] s2).landed = false) →
      (step^[j + 1] s1).vx < (step^[j + 1] s2).vx ∧
        (step^[j + 1] s1).x < (step^[j + 1] s2).x := by
    intro j
    induction j with
    | zero =>
      intro hA
      have h0 := hA 0 (by omega)
      simp only [zero_add, Function.iterate_one]
      obtain ⟨ha1, hb1⟩ := step_x_vx hD vD dt sp s1 h0.1
      obtain ⟨ha2, hb2⟩ := step_x_vx hD vD dt sp s2 h0.2
      rw [hstepdef] at *
      rw [ha1, ha2, hb1, hb2, hx0]
      constructor
      · exact mul_lt_mul_of_pos_right hvx0 hh
      · nlinarith [mul_pos (mul_pos (sub_pos.mpr hvx0) hh) hdt]
    | succ j ih =>
      intro hA
      have hprev := ih (fun k hk => hA k (by omega))
      have hland := hA (j + 1) (by omega)
      have hstep := step_mono hD vD dt sp (step^[j + 1] s1) (step^[j + 1] s2)
        hdt hh hland.1 hland.2 hprev.1 (le_of_lt hprev.2)
      rw [hstepdef] at *
      simpa [Function.iterate_succ_apply'] using hstep
  obtain ⟨j, rfl⟩ : ∃ j, n = j + 1 := ⟨n - 1, by omega⟩
  exact (main j hair).2

/-- If the very first step lands, the path loop stops there: its final state
is the state after that one step. -/
theorem fpLoop_two (step : FlightState α → FlightState α) (n : ℕ)
    (s : FlightState α) (h0 : s.landed = false) (ht : s.flightTime < 10)
    (h1 : (step s).landed = true) :
    (fpLoop step (n + 2) s).2 = step s := by
  rw [show n + 2 = (n + 1) + 1 from rfl, fpLoop_succ, if_pos ⟨h0, ht⟩]
  show (fpLoop step (n + 1) (step s)).2 = step s
  rw [fpLoop_succ, if_neg]
  intro hc
  rw [h1] at hc
  exact absurd hc.1 (by simp)

/-- When the new position clears neither the hill test nor stays in bounds —
it misses the hill (still above it) but exceeds the horizontal scene bound —
the step resolves through the safety fallback, with the recorded fields
spelled out. -/
theorem simulateFlightP_safety_char (hD vD : α) (sp : Pt α) (dt : α)
    (s : FlightState α) (h0 : s.landed = false)
    (hnohill : s.y + (s.vy + (G_PX : α) * dt) * vD * dt <
      getHillY (s.x + s.vx * hD * dt))
    (hsafety : s.x + s.vx * hD * dt > (GAME_W : α) + 20) :
    simulateFlightP hD vD sp dt s =
      { x := s.x + s.vx * hD * dt,
        y := s.y + (s.vy + (G_PX : α) * dt) * vD * dt,
        vx := s.vx * hD,
        vy := (s.vy + (G_PX : α) * dt) * vD,
        landed := true,
        distance := clamp (clamp (s.x + s.vx * hD * dt - sp.x) 0 (GAME_W : α)
          / (PIXELS_PER_METRE : α)) 0 (MAX_DISTANCE : α),
        flightTime := s.flightTime + dt } := by
  have hc1 : ¬(s.landed = true) := by simp [h0]
  have hc2 : ¬(s.y + (s.vy + (G_PX : α) * dt) * vD * dt ≥
      getHillY (s.x + s.vx * hD * dt) ∧ s.x + s.vx * hD * dt > sp.x) :=
    fun hc => absurd hc.1 (not_le.mpr hnohill)
  unfold simulateFlightP
  rw [if_neg hc1]
  dsimp only
  rw [if_neg hc2]
  dsimp only
  rw [if_pos (Or.inl hsafety)]

/-- With a huge speed multiplier, zero wind and the perfect 38-degree angle,
the very first simulation step flies past the scene bound, so the safety
fallback lands the flight with the distance clamped to exactly
MAX_DISTANCE = 200 metres. -/
theorem lands_at_cap (m : ℝ) (hm : 1000000 ≤ m) :
    rawLandingDistance (launchVelWithMult 38 0 m)
      ⟨(RAMP_LIP_X : ℝ), (RAMP_LIP_Y : ℝ)⟩ = 200 := by
  have cRL : ((RAMP_LIP_X : ℚ) : ℝ) = 175 := by norm_num [RAMP_LIP_X]
  have cRLY : ((RAMP_LIP_Y : ℚ) : ℝ) = 380 := by norm_num [RAMP_LIP_Y]
  have cG : ((G_PX : ℚ) : ℝ) = 98.1 := by norm_num [G_PX, GRAVITY, GRAVITY_SCALE]
  have cW : ((GAME_W : ℚ) : ℝ) = 400 := by norm_num [GAME_W]
  have cH : ((GAME_H : ℚ) : ℝ) = 700 := by norm_num [GAME_H]
  have cPS : ((PIXEL_SCALE : ℚ) : ℝ) = 3.2 := by norm_num [PIXEL_SCALE]
  have cPPM : ((PIXELS_PER_METRE : ℚ) : ℝ) = 1.265 := by norm_num [PIXELS_PER_METRE]
  have cMD : ((MAX_DISTANCE : ℚ) : ℝ) = 200 := by norm_num [MAX_DISTANCE]
  have cSL : ((LANDING_HILL_SLOPE : ℚ) : ℝ) = 0.38 := by norm_num [LANDING_HILL_SLOPE]
  have chr : ((hDrag60 : ℚ) : ℝ) = 0.985 := by norm_num [hDrag60, AIR_RESISTANCE]
  have cvr : ((vDrag60 : ℚ) : ℝ) = 0.9955 := by norm_num [vDrag60, AIR_RESISTANCE]
  have hπ := Real.pi_pos
  have hθ0 : (0 : ℝ) ≤ 38 * (Real.pi / 180) := by positivity
  have hθ3 : (38 : ℝ) * (Real.pi / 180) ≤ Real.pi / 3 := by nlinarith
  have hθπ : (38 : ℝ) * (Real.pi / 180) ≤ Real.pi := by nlinarith
  have hcos : (1 / 2 : ℝ) ≤ Real.cos (38 * (Real.pi / 180)) := by
    have h := Real.cos_le_cos_of_nonneg_of_le_pi hθ0 (by linarith) hθ3
    rw [Real.cos_pi_div_three] at h
    exact h
  have hsin : (0 : ℝ) ≤ Real.sin (38 * (Real.pi / 180)) :=
    Real.sin_nonneg_of_nonneg_of_le_pi hθ0 hθπ
  have hB70 : (70 : ℝ) ≤ Real.sqrt (2 * ((GRAVITY : ℚ) : ℝ) * ((RAMP_HEIGHT : ℚ) : ℝ)) := by
    calc (70 : ℝ) = Real.sqrt 4900 := by
          rw [show (4900 : ℝ) = 70 ^ 2 by norm_num,
            Real.sqrt_sq (by norm_num : (0 : ℝ) ≤ 70)]
      _ ≤ _ := Real.sqrt_le_sqrt (by norm_num [GRAVITY, RAMP_HEIGHT])
  set sp : Pt ℝ := ⟨(RAMP_LIP_X : ℝ), (RAMP_LIP_Y : ℝ)⟩ with hsp
  set s0 : FlightState ℝ := createFlightState (launchVelWithMult 38 0 m) sp with hs0
  have hm0 : (0 : ℝ) ≤ m := by linarith
  have hvx_eq : s0.vx = Real.sqrt (2 * ((GRAVITY : ℚ) : ℝ) * ((RAMP_HEIGHT : ℚ) : ℝ)) *
      m * ((PIXEL_SCALE : ℚ) : ℝ) * Real.cos ((38 : ℝ) * (Real.pi / 180)) +
      0 * ((PIXEL_SCALE : ℚ) : ℝ) * 0.3 := rfl
  have hvy_eq : s0.vy = -(Real.sqrt (2 * ((GRAVITY : ℚ) : ℝ) * ((RAMP_HEIGHT : ℚ) : ℝ)) *
      m * ((PIXEL_SCALE : ℚ) : ℝ) * Real.sin ((38 : ℝ) * (Real.pi / 180))) := rfl
  have hBnn : (0 : ℝ) ≤ Real.sqrt (2 * ((GRAVITY : ℚ) : ℝ) * ((RAMP_HEIGHT : ℚ) : ℝ)) :=
    Real.sqrt_nonneg _
  have hBm : (70000000 : ℝ) ≤
      Real.sqrt (2 * ((GRAVITY : ℚ) : ℝ) * ((RAMP_HEIGHT : ℚ) : ℝ)) * m := by
    have h := mul_le_mul hB70 hm (by norm_num) (by linarith)
    linarith
  have hvx_ge : (100000000 : ℝ) ≤ s0.vx := by
    rw [hvx_eq, cPS]
    have h1 : (224000000 : ℝ) ≤ Real.sqrt (2 * ((GRAVITY : ℚ) : ℝ) *
        ((RAMP_HEIGHT : ℚ) : ℝ)) * m * 3.2 := by linarith
    have h2 : (224000000 : ℝ) * (1 / 2) ≤ Real.sqrt (2 * ((GRAVITY : ℚ) : ℝ) *
        ((RAMP_HEIGHT : ℚ) : ℝ)) * m * 3.2 * Real.cos (38 * (Real.pi / 180)) :=
      mul_le_mul h1 hcos (by norm_num) (by linarith)
    nlinarith
  have hvy_le : s0.vy ≤ 0 := by
    rw [hvy_eq]
    have h1 : (0 : ℝ) ≤ Real.sqrt (2 * ((GRAVITY : ℚ) : ℝ) * ((RAMP_HEIGHT : ℚ) : ℝ)) *
        m * ((PIXEL_SCALE : ℚ) : ℝ) * Real.sin (38 * (Real.pi / 180)) := by
      apply mul_nonneg (mul_nonneg (mul_nonneg hBnn hm0) _) hsin
      rw [cPS]
      norm_num
    linarith
  have hx2 : (1600000 : ℝ) ≤ s0.x + s0.vx * ((hDrag60 : ℚ) : ℝ) * (1 / 60) := by
    rw [show s0.x = ((RAMP_LIP_X : ℚ) : ℝ) from rfl, cRL, chr]
    linarith
  have hhill : getHillY (s0.x + s0.vx * ((hDrag60 : ℚ) : ℝ) * (1 / 60)) =
      ((GAME_H : ℚ) : ℝ) := by
    unfold getHillY
    rw [if_neg (not_lt.mpr (by rw [cRL]; linarith))]
    unfold clamp
    rw [min_eq_left (by rw [cRL, cRLY, cSL, cH]; nlinarith),
      max_eq_right (by rw [cH]; norm_num)]
  have hnohill : s0.y + (s0.vy + ((G_PX : ℚ) : ℝ) * (1 / 60)) * ((vDrag60 : ℚ) : ℝ) *
      (1 / 60) < getHillY (s0.x + s0.vx * ((hDrag60 : ℚ) : ℝ) * (1 / 60)) := by
    rw [hhill, cH, show s0.y = ((RAMP_LIP_Y : ℚ) : ℝ) from rfl, cRLY, cG, cvr]
    linarith
  have hsafety : s0.x + s0.vx * ((hDrag60 : ℚ) : ℝ) * (1 / 60) > ((GAME_W : ℚ) : ℝ) + 20 := by
    rw [cW]
    linarith
  have hchar := simulateFlightP_safety_char ((hDrag60 : ℚ) : ℝ) ((vDrag60 : ℚ) : ℝ)
    sp (1 / 60) s0 rfl hnohill hsafety
  have hlanded : (flightStepR sp s0).landed = true := by
    unfold flightStepR
    rw [hchar]
  have hT : s0.flightTime < 10 := by
    rw [show s0.flightTime = (0 : ℝ) from rfl]
    norm_num
  unfold rawLandingDistance
  rw [show (601 : ℕ) = 599 + 2 from rfl,
    fpLoop_two (flightStepR sp) 599 s0 rfl hT hlanded]
  unfold flightStepR
  rw [hchar]
  show clamp (clamp (s0.x + s0.vx * ((hDrag60 : ℚ) : ℝ) * (1 / 60) - sp.x) 0
      ((GAME_W : ℚ) : ℝ) / ((PIXELS_PER_METRE : ℚ) : ℝ)) 0 ((MAX_DISTANCE : ℚ) : ℝ) = 200
  rw [show sp.x = ((RAMP_LIP_X : ℚ) : ℝ) from rfl, cRL, cW, cPPM, cMD]
  unfold clamp
  rw [min_eq_left (show (400 : ℝ) ≤ s0.x + s0.vx * ((hDrag60 : ℚ) : ℝ) * (1 / 60) - 175
    from by linarith)]
  rw [max_eq_right (show (0 : ℝ) ≤ (400 : ℝ) from by norm_num)]
  rw [min_eq_left (show (200 : ℝ) ≤ 400 / 1.265 from by norm_num)]
  rw [max_eq_right (show (0 : ℝ) ≤ (200 : ℝ) from by norm_num)]

/-- Counterexample for C9 as stated: the multipliers 1000000 and 2000000 (with
angle 38 and wind 0 held fixed, dt = 1/60) both produce a raw landing distance
of exactly 200 metres — the higher multiplier does not give a strictly greater
distance, because both clamp at the scene bound and distance cap. -/
theorem speed_distance_ties_at_cap :
    ((1000000 : ℝ) < 2000000) ∧
    rawLandingDistance (launchVelWithMult 38 0 1000000)
        ⟨(RAMP_LIP_X : ℝ), (RAMP_LIP_Y : ℝ)⟩ = 200 ∧
    rawLandingDistance (launchVelWithMult 38 0 2000000)
        ⟨(RAMP_LIP_X : ℝ), (RAMP_LIP_Y : ℝ)⟩ = 200 :=
  ⟨by norm_num, lands_at_cap 1000000 (by norm_num), lands_at_cap 2000000 (by norm_num)⟩

/-- Witness for the amended C9: multipliers 1 and 2, one step. -/
theorem speed_multiplier_monotone_airborne_witness :
    (0 : ℚ) < 1 / 60 ∧ (1 : ℚ) < 2 ∧
    ((simulateFlightP (1 : ℚ) 1 ⟨175, 380⟩ (1 / 60))^[1]
        (createFlightState (launchVelOfMult 1 1 0 0 1) ⟨175, 380⟩)).x <
      ((simulateFlightP (1 : ℚ) 1 ⟨175, 380⟩ (1 / 60))^[1]
        (createFlightState (launchVelOfMult 1 1 0 0 2) ⟨175, 380⟩)).x :=
  ⟨by norm_num, by norm_num,
    speed_multiplier_monotone_airborne 1 1 (1 / 60) 1 1 0 0 1 2 ⟨175, 380⟩ 1
      (by norm_num) (by norm_num) (by norm_num) (by norm_num) (le_refl 1)
      (by
        intro k hk
        have hk0 : k = 0 := by omega
        subst hk0
        exact ⟨rfl, rfl⟩)⟩

end SkiJump
